import Mathlib

/-!
Verification of the Device Link Engine of the yarisma repository
(src/raspitemp.py and src/raspberry-backend.py), as a shallow embedding.

Python floats are modelled as exact rationals (ℚ), strings as `String` or
`List Char`, the mutable global dictionaries as one record type, and each
stateful Python function as a pure state-transformer.  Wall-clock time is
made explicit: inter-arrival ages and poll budgets ("fuel") are
parameters, and the bytes available on the serial link are a list of
chunks, one chunk per `read(in_waiting)` call.  Log-only effects are
omitted.  Multi-statement Python bodies are split into one Lean
definition per contiguous block, composed in source order.
-/

namespace Raspitemp

/-- Constant TEMP_SENSOR_TIMEOUT = 10.0 (src/raspitemp.py, line 142). -/
def TEMP_SENSOR_TIMEOUT : ℚ := 10

/-- Constant REFLECTOR_TIMEOUT = 30.0 (src/raspitemp.py, line 138). -/
def REFLECTOR_TIMEOUT : ℚ := 30

/-- Constant TEMP_DIFF_WARNING = 5.0 (src/raspitemp.py, line 141). -/
def TEMP_DIFF_WARNING : ℚ := 5

/-- The link-derived global state of src/raspitemp.py: the fields of the
`temperature_data`, `system_state` and `reflector_data` dictionaries
(lines 48-123) that the embedded operations read or write, plus the motor
bookkeeping dictionaries (lines 48-50).  Timestamps are not stored; the
health monitor receives the derived ages directly. -/
structure GlobalState where
  sensor1_temp : ℚ
  sensor2_temp : ℚ
  current_temp : ℚ
  temp_alarm : Bool
  buzzer_active : Bool
  max_temp_reached : ℚ
  max_temp_sensor1 : ℚ
  max_temp_sensor2 : ℚ
  alarm_count : Nat
  sensor1_connected : Bool
  sensor2_connected : Bool
  sensor_failure_count : Nat
  sensors_detected : Bool
  monitoring_enabled : Bool
  armed : Bool
  brake_active : Bool
  relay_brake_active : Bool
  temperature_emergency : Bool
  temperature_monitoring_required : Bool
  reflector_system_enabled : Bool
  reflector_system_active : Bool
  motor_states : Nat → Bool
  individual_motor_speeds : Nat → Int
  group_speed_levitation : Int
  group_speed_thrust : Int

/-- Initial values of the global dictionaries (src/raspitemp.py,
lines 48-123): temperatures 25.0, all alarm and connectivity flags false,
`reflector_data['system_active'] = True` and
`system_state['reflector_system_enabled'] = True`. -/
def initial_state : GlobalState where
  sensor1_temp := 25
  sensor2_temp := 25
  current_temp := 25
  temp_alarm := false
  buzzer_active := false
  max_temp_reached := 25
  max_temp_sensor1 := 25
  max_temp_sensor2 := 25
  alarm_count := 0
  sensor1_connected := false
  sensor2_connected := false
  sensor_failure_count := 0
  sensors_detected := false
  monitoring_enabled := false
  armed := false
  brake_active := false
  relay_brake_active := false
  temperature_emergency := false
  temperature_monitoring_required := false
  reflector_system_enabled := true
  reflector_system_active := true
  motor_states := fun _ => false
  individual_motor_speeds := fun _ => 0
  group_speed_levitation := 0
  group_speed_thrust := 0

/-- Block at src/raspitemp.py lines 939-943 of `_update_dual_temperatures`:
a sensor-1 value strictly inside (-50, 100) marks sensor 1 connected and
enables monitoring. -/
def mark_sensor1_valid (st : GlobalState) (temp1 : ℚ) : GlobalState :=
  if temp1 > -50 ∧ temp1 < 100 then
    { st with
      sensor1_connected := true
      sensors_detected := true
      monitoring_enabled := true
      temperature_monitoring_required := true }
  else st

/-- Block at src/raspitemp.py lines 945-949 of `_update_dual_temperatures`:
the same for sensor 2. -/
def mark_sensor2_valid (st : GlobalState) (temp2 : ℚ) : GlobalState :=
  if temp2 > -50 ∧ temp2 < 100 then
    { st with
      sensor2_connected := true
      sensors_detected := true
      monitoring_enabled := true
      temperature_monitoring_required := true }
  else st

/-- Block at src/raspitemp.py lines 951-969 of `_update_dual_temperatures`:
the three reported values are stored unconditionally and the running
maxima are updated. -/
def store_dual_temperatures (st : GlobalState) (temp1 temp2 max_temp : ℚ) :
    GlobalState :=
  { st with
    sensor1_temp := temp1
    sensor2_temp := temp2
    current_temp := max_temp
    max_temp_sensor1 :=
      if temp1 > st.max_temp_sensor1 then temp1 else st.max_temp_sensor1
    max_temp_sensor2 :=
      if temp2 > st.max_temp_sensor2 then temp2 else st.max_temp_sensor2
    max_temp_reached :=
      if max_temp > st.max_temp_reached then max_temp else st.max_temp_reached }

/-- Embedding of `_update_dual_temperatures(self, temp1, temp2, max_temp)`
(src/raspitemp.py, lines 932-1002), composing the three blocks above in
source order.  The timestamp/statistics updates and the downsampled
history ring (lines 971-990) carry no information the proved properties
consult and are omitted, as are the two log-only checks (lines 992-999). -/
def update_dual_temperatures (st : GlobalState) (temp1 temp2 max_temp : ℚ) :
    GlobalState :=
  store_dual_temperatures (mark_sensor2_valid (mark_sensor1_valid st temp1) temp2)
    temp1 temp2 max_temp

/-- Block at src/raspitemp.py lines 454-462 of `_sensor_health_monitor`:
sensor 1 is flipped to disconnected when silent for more than
TEMP_SENSOR_TIMEOUT, and back to connected when its age is within the
timeout. -/
def check_sensor1_health (st : GlobalState) (sensor1_age : ℚ) : GlobalState :=
  if sensor1_age > TEMP_SENSOR_TIMEOUT ∧ st.sensor1_connected = true then
    { st with
      sensor1_connected := false
      sensor_failure_count := st.sensor_failure_count + 1 }
  else if sensor1_age ≤ TEMP_SENSOR_TIMEOUT ∧ st.sensor1_connected = false then
    { st with sensor1_connected := true }
  else st

/-- Block at src/raspitemp.py lines 464-472 of `_sensor_health_monitor`:
the same for sensor 2. -/
def check_sensor2_health (st : GlobalState) (sensor2_age : ℚ) : GlobalState :=
  if sensor2_age > TEMP_SENSOR_TIMEOUT ∧ st.sensor2_connected = true then
    { st with
      sensor2_connected := false
      sensor_failure_count := st.sensor_failure_count + 1 }
  else if sensor2_age ≤ TEMP_SENSOR_TIMEOUT ∧ st.sensor2_connected = false then
    { st with sensor2_connected := true }
  else st

/-- Block at src/raspitemp.py lines 474-483 of `_sensor_health_monitor`:
the reflector channel with REFLECTOR_TIMEOUT. -/
def check_reflector_health (st : GlobalState) (reflector_age : ℚ) : GlobalState :=
  if reflector_age > REFLECTOR_TIMEOUT ∧ st.reflector_system_active = true then
    { st with
      reflector_system_active := false
      reflector_system_enabled := false }
  else if reflector_age ≤ REFLECTOR_TIMEOUT ∧ st.reflector_system_active = false then
    { st with
      reflector_system_active := true
      reflector_system_enabled := true }
  else st

/-- Block at src/raspitemp.py lines 485-501 of `_sensor_health_monitor`:
`sensors_available = sensor1_connected or sensor2_connected` is compared
with `sensors_detected`; on a transition to no sensors, monitoring is
disabled and the alarm, buzzer and emergency flags are cleared. -/
def recompute_monitoring (st : GlobalState) : GlobalState :=
  let sensors_available := st.sensor1_connected || st.sensor2_connected
  if sensors_available ≠ st.sensors_detected then
    if sensors_available then
      { st with
        sensors_detected := true
        temperature_monitoring_required := true
        monitoring_enabled := true }
    else
      { st with
        sensors_detected := false
        temperature_monitoring_required := false
        monitoring_enabled := false
        temp_alarm := false
        buzzer_active := false
        temperature_emergency := false }
  else st

/-- Embedding of one iteration of `_sensor_health_monitor`
(src/raspitemp.py, lines 447-513), composing the four blocks above in
source order.  The ages are the elapsed seconds since each source was
last seen.  The cross-sensor difference check (lines 503-507) only logs
and is omitted. -/
def sensor_health_monitor_step (st : GlobalState)
    (sensor1_age sensor2_age reflector_age : ℚ) : GlobalState :=
  recompute_monitoring
    (check_reflector_health
      (check_sensor2_health (check_sensor1_health st sensor1_age) sensor2_age)
      reflector_age)

/-- Embedding of the `TEMP_ALARM:` branch of
`_parse_dual_temp_reflector_line` (src/raspitemp.py, lines 735-759): only
acted upon when `monitoring_enabled` holds; raises the alarm, the buzzer
and the temperature emergency and lifts `current_temp` to the reported
value.  The reflector-count extraction is a separate call and log output
is omitted. -/
def temp_alarm_line (st : GlobalState) (temp_value : ℚ) : GlobalState :=
  if st.monitoring_enabled then
    { st with
      current_temp := max st.current_temp temp_value
      temp_alarm := true
      buzzer_active := true
      alarm_count := st.alarm_count + 1
      temperature_emergency := true }
  else st

/-- Embedding of the `TEMP_SAFE:` branch of
`_parse_dual_temp_reflector_line` (src/raspitemp.py, lines 762-784). -/
def temp_safe_line (st : GlobalState) (temp_value : ℚ) : GlobalState :=
  if st.monitoring_enabled then
    { st with
      current_temp := temp_value
      temp_alarm := false
      buzzer_active := false
      temperature_emergency := false }
  else st

/-- Embedding of the standard-HEARTBEAT branch of
`_parse_dual_temp_reflector_line` (src/raspitemp.py, lines 702-732):
armed/brake/relay flags and `current_temp` are taken from the line; the
alarm flag is only updated while `monitoring_enabled` holds. -/
def heartbeat_line (st : GlobalState)
    (armedBit brakeBit relayBit : Bool) (temp : ℚ) (temp_alarm_active : Bool) :
    GlobalState :=
  let st1 :=
    { st with
      armed := armedBit
      brake_active := brakeBit
      relay_brake_active := relayBit
      current_temp := temp }
  if st1.monitoring_enabled then
    if temp_alarm_active ≠ st1.temp_alarm then
      if temp_alarm_active then
        { st1 with
          temp_alarm := true
          alarm_count := st1.alarm_count + 1
          temperature_emergency := true }
      else
        { st1 with
          temp_alarm := false
          temperature_emergency := false }
    else st1
  else st1

/-- Embedding of the `Sensor 1 (Pin 8): CONNECTED` branch
(src/raspitemp.py, lines 802-809). -/
def sensor1_connected_line (st : GlobalState) : GlobalState :=
  { st with
    sensor1_connected := true
    sensors_detected := true
    monitoring_enabled := true
    temperature_monitoring_required := true }

/-- Embedding of the `Sensor 2 (Pin 13): CONNECTED` branch
(src/raspitemp.py, lines 811-818). -/
def sensor2_connected_line (st : GlobalState) : GlobalState :=
  { st with
    sensor2_connected := true
    sensors_detected := true
    monitoring_enabled := true
    temperature_monitoring_required := true }

/-- Embedding of the `WARNING:Sensor1_disconnected` branch
(src/raspitemp.py, lines 787-792). -/
def warning_sensor1_disconnected (st : GlobalState) : GlobalState :=
  { st with
    sensor1_connected := false
    sensor_failure_count := st.sensor_failure_count + 1 }

/-- Embedding of the `WARNING:Sensor2_disconnected` branch
(src/raspitemp.py, lines 794-799). -/
def warning_sensor2_disconnected (st : GlobalState) : GlobalState :=
  { st with
    sensor2_connected := false
    sensor_failure_count := st.sensor_failure_count + 1 }

/-- Embedding of the `Sensor 1 (Pin 8): DISCONNECTED` branch
(src/raspitemp.py, lines 821-825). -/
def sensor1_disconnected_line (st : GlobalState) : GlobalState :=
  { st with sensor1_connected := false }

/-- Embedding of the `Sensor 2 (Pin 13): DISCONNECTED` branch
(src/raspitemp.py, lines 827-831). -/
def sensor2_disconnected_line (st : GlobalState) : GlobalState :=
  { st with sensor2_connected := false }

/-- Reachability invariant of the global state: the three monitoring flags
written together at every site (`sensors_detected`, `monitoring_enabled`,
`temperature_monitoring_required`) agree, and the alarm, buzzer and
emergency flags can only be set while at least one sensor is considered
detected.  It holds initially and is preserved by every embedded
operation (lemmas below). -/
def Inv (st : GlobalState) : Prop :=
  st.monitoring_enabled = st.sensors_detected ∧
  st.temperature_monitoring_required = st.sensors_detected ∧
  (st.temp_alarm = true → st.sensors_detected = true) ∧
  (st.buzzer_active = true → st.sensors_detected = true) ∧
  (st.temperature_emergency = true → st.sensors_detected = true)

instance (st : GlobalState) : Decidable (Inv st) := by
  unfold Inv; infer_instance

theorem inv_initial_state : Inv initial_state := by
  unfold Inv initial_state; simp

theorem inv_mark_sensor1_valid (st : GlobalState) (t1 : ℚ) (h : Inv st) :
    Inv (mark_sensor1_valid st t1) := by
  obtain ⟨h1, h2, h3, h4, h5⟩ := h
  unfold Inv mark_sensor1_valid
  split_ifs <;> simp_all

theorem inv_mark_sensor2_valid (st : GlobalState) (t2 : ℚ) (h : Inv st) :
    Inv (mark_sensor2_valid st t2) := by
  obtain ⟨h1, h2, h3, h4, h5⟩ := h
  unfold Inv mark_sensor2_valid
  split_ifs <;> simp_all

theorem inv_store_dual_temperatures (st : GlobalState) (t1 t2 tm : ℚ)
    (h : Inv st) : Inv (store_dual_temperatures st t1 t2 tm) := by
  obtain ⟨h1, h2, h3, h4, h5⟩ := h
  unfold Inv store_dual_temperatures
  simp_all

theorem inv_update_dual_temperatures (st : GlobalState) (t1 t2 tm : ℚ)
    (h : Inv st) : Inv (update_dual_temperatures st t1 t2 tm) :=
  inv_store_dual_temperatures _ _ _ _
    (inv_mark_sensor2_valid _ _ (inv_mark_sensor1_valid _ _ h))

theorem inv_check_sensor1_health (st : GlobalState) (a1 : ℚ) (h : Inv st) :
    Inv (check_sensor1_health st a1) := by
  obtain ⟨h1, h2, h3, h4, h5⟩ := h
  unfold Inv check_sensor1_health
  split_ifs <;> simp_all

theorem inv_check_sensor2_health (st : GlobalState) (a2 : ℚ) (h : Inv st) :
    Inv (check_sensor2_health st a2) := by
  obtain ⟨h1, h2, h3, h4, h5⟩ := h
  unfold Inv check_sensor2_health
  split_ifs <;> simp_all

theorem inv_check_reflector_health (st : GlobalState) (ar : ℚ) (h : Inv st) :
    Inv (check_reflector_health st ar) := by
  obtain ⟨h1, h2, h3, h4, h5⟩ := h
  unfold Inv check_reflector_health
  split_ifs <;> simp_all

theorem inv_recompute_monitoring (st : GlobalState) (h : Inv st) :
    Inv (recompute_monitoring st) := by
  obtain ⟨h1, h2, h3, h4, h5⟩ := h
  unfold Inv recompute_monitoring
  dsimp only
  split_ifs <;> simp_all

theorem inv_sensor_health_monitor_step (st : GlobalState) (a1 a2 ar : ℚ)
    (h : Inv st) : Inv (sensor_health_monitor_step st a1 a2 ar) :=
  inv_recompute_monitoring _
    (inv_check_reflector_health _ _
      (inv_check_sensor2_health _ _ (inv_check_sensor1_health _ _ h)))

theorem inv_temp_alarm_line (st : GlobalState) (v : ℚ) (h : Inv st) :
    Inv (temp_alarm_line st v) := by
  obtain ⟨h1, h2, h3, h4, h5⟩ := h
  unfold Inv temp_alarm_line
  split_ifs <;> simp_all

theorem inv_temp_safe_line (st : GlobalState) (v : ℚ) (h : Inv st) :
    Inv (temp_safe_line st v) := by
  obtain ⟨h1, h2, h3, h4, h5⟩ := h
  unfold Inv temp_safe_line
  split_ifs <;> simp_all

theorem inv_heartbeat_line (st : GlobalState)
    (armedBit brakeBit relayBit : Bool) (temp : ℚ) (alarmBit : Bool)
    (h : Inv st) : Inv (heartbeat_line st armedBit brakeBit relayBit temp alarmBit) := by
  obtain ⟨h1, h2, h3, h4, h5⟩ := h
  unfold Inv heartbeat_line
  dsimp only
  split_ifs <;> simp_all

theorem inv_sensor1_connected_line (st : GlobalState) (h : Inv st) :
    Inv (sensor1_connected_line st) := by
  obtain ⟨h1, h2, h3, h4, h5⟩ := h
  unfold Inv sensor1_connected_line
  simp_all

theorem inv_sensor2_connected_line (st : GlobalState) (h : Inv st) :
    Inv (sensor2_connected_line st) := by
  obtain ⟨h1, h2, h3, h4, h5⟩ := h
  unfold Inv sensor2_connected_line
  simp_all

theorem inv_warning_sensor1_disconnected (st : GlobalState) (h : Inv st) :
    Inv (warning_sensor1_disconnected st) := by
  obtain ⟨h1, h2, h3, h4, h5⟩ := h
  unfold Inv warning_sensor1_disconnected
  simp_all

theorem inv_warning_sensor2_disconnected (st : GlobalState) (h : Inv st) :
    Inv (warning_sensor2_disconnected st) := by
  obtain ⟨h1, h2, h3, h4, h5⟩ := h
  unfold Inv warning_sensor2_disconnected
  simp_all

theorem inv_sensor1_disconnected_line (st : GlobalState) (h : Inv st) :
    Inv (sensor1_disconnected_line st) := by
  obtain ⟨h1, h2, h3, h4, h5⟩ := h
  unfold Inv sensor1_disconnected_line
  simp_all

theorem inv_sensor2_disconnected_line (st : GlobalState) (h : Inv st) :
    Inv (sensor2_disconnected_line st) := by
  obtain ⟨h1, h2, h3, h4, h5⟩ := h
  unfold Inv sensor2_disconnected_line
  simp_all

/-- Character classified as whitespace by Python `str.strip()` (the
subset that can occur on this ASCII link). -/
def isPySpace (c : Char) : Bool :=
  c == ' ' || c == '\n' || c == '\t' || c == '\r'

/-- Whether `pat` occurs at the head of `hay`. -/
def startsWithSeq : List Char → List Char → Bool
  | [], _ => true
  | _ :: _, [] => false
  | a :: as, b :: bs => a == b && startsWithSeq as bs

/-- Whether `pat` occurs contiguously anywhere in `hay`; the model of the
Python `in` test on strings. -/
def containsSeq (pat : List Char) : List Char → Bool
  | [] => pat.isEmpty
  | c :: rest => startsWithSeq pat (c :: rest) || containsSeq pat rest

/-- Model of Python `str.strip()`. -/
def trimChars (l : List Char) : List Char :=
  ((l.dropWhile isPySpace).reverse.dropWhile isPySpace).reverse

/-- The completion keywords of `send_command_sync` (src/raspitemp.py,
lines 1119-1122). -/
def completion_keywords : List String :=
  ["MOTOR_STARTED", "MOTOR_STOPPED", "LEV_GROUP_STARTED",
   "THR_GROUP_STARTED", "ARMED", "RELAY_BRAKE:",
   "PONG", "ACK:", "BRAKE_", "DISARMED", "EMERGENCY_STOP",
   "DUAL-TEMP", "TEMP_DUAL", "REFLECTOR_RESET", "REFLECTOR_FULL"]

/-- Whether the accumulated response text contains one of the completion
keywords (src/raspitemp.py, line 1124). -/
def has_completion_keyword (response : List Char) : Bool :=
  completion_keywords.any fun k => containsSeq k.toList response

/-- The response-reading loop of `send_command_sync` (src/raspitemp.py,
lines 1106-1133).  `chunks` lists the byte groups successive
`connection.read(connection.in_waiting)` calls return; `fuel` is the
number of poll iterations the timeout allows.  Each iteration with data
waiting consumes one chunk from the link (this loop, not the continuous
reader, performs that read), appends it to the accumulated text and exits
when a completion keyword is present, when the text holds a newline, or
when it exceeds 150 characters; otherwise polling continues until fuel
runs out.  Returns the accumulated text, the chunks still unread on the
link, and the number of reads performed. -/
def read_response_loop : Nat → List (List Char) → List Char → Nat →
    List Char × List (List Char) × Nat
  | 0, chunks, acc, reads => (acc, chunks, reads)
  | fuel + 1, [], acc, reads => read_response_loop fuel [] acc reads
  | fuel + 1, c :: rest, acc, reads =>
    let acc2 := acc ++ c
    if has_completion_keyword acc2 then (acc2, rest, reads + 1)
    else if acc2.contains '\n' || acc2.length > 150 then (acc2, rest, reads + 1)
    else read_response_loop fuel rest acc2 (reads + 1)

/-- The controller fields `send_command_sync` consults:
`self.is_connected`, `self.connection` (whether a serial handle is open)
and the `system_state['commands']` counter it increments. -/
structure CtrlState where
  is_connected : Bool
  connection_open : Bool
  commands : Nat
deriving DecidableEq

/-- Result of a synchronous send: the "Not connected" early return, the
"Empty response" failure, or success carrying the stripped response. -/
inductive SyncResult where
  | notConnected
  | emptyResponse
  | ok (response : List Char)
deriving DecidableEq

/-- Everything a `send_command_sync` call produced: its result, the
updated controller state, the lines written to the link, the raw
accumulated response text, the chunks left unread on the link and the
number of link reads the call itself performed. -/
structure SyncOutcome where
  result : SyncResult
  state : CtrlState
  written : List (List Char)
  raw : List Char
  rest : List (List Char)
  reads : Nat
deriving DecidableEq

/-- Embedding of `send_command_sync(self, command, timeout)`
(src/raspitemp.py, lines 1086-1152).  With no open connection (or during
shutdown) it returns "Not connected" without touching the link; otherwise
it writes `command + "\n"`, runs the read loop above, increments the
commands counter, and returns success exactly when the stripped
accumulated text is nonempty — whether or not a completion keyword ever
arrived.  Serial exceptions are outside the model (the link either
delivers `chunks` or stays silent); rate-limit sleeps only affect
timing. -/
def send_command_sync (st : CtrlState) (shutdown : Bool) (command : List Char)
    (chunks : List (List Char)) (fuel : Nat) : SyncOutcome :=
  if !st.is_connected || !st.connection_open || shutdown then
    { result := .notConnected, state := st, written := [],
      raw := [], rest := chunks, reads := 0 }
  else
    let r := read_response_loop fuel chunks [] 0
    let st2 := { st with commands := st.commands + 1 }
    if (trimChars r.1).isEmpty then
      { result := .emptyResponse, state := st2, written := [command ++ ['\n']],
        raw := r.1, rest := r.2.1, reads := r.2.2 }
    else
      { result := .ok (trimChars r.1), state := st2, written := [command ++ ['\n']],
        raw := r.1, rest := r.2.1, reads := r.2.2 }

/-- Serial operations `connect` can perform, in order: the physical open,
the PING probe write and the probe-response read of `_test_connection`. -/
inductive SerialAct where
  | openPort
  | writeProbe
  | readProbe
deriving DecidableEq

/-- The connection-lifecycle fields of the controller:
`self.reconnect_attempts`, `self.port`, `self.is_connected` and whether a
serial handle is open. -/
structure ConnState where
  reconnect_attempts : Nat
  port : Option String
  is_connected : Bool
  connection_open : Bool
deriving DecidableEq

/-- Constant `self.max_attempts = 5` (src/raspitemp.py, line 152). -/
def max_attempts : Nat := 5

/-- Embedding of `connect(self)` (src/raspitemp.py, lines 265-328).
With the attempt budget exhausted, or no port, it fails fast before any
serial I/O.  Otherwise it opens the port and runs the PING handshake of
`_test_connection` (lines 330-358); `attempt_ok` is the oracle for that
combined open-and-handshake outcome.  Success resets the attempt counter
to zero; failure increments it and closes the connection.  The returned
action list records the serial I/O performed (a failure performs at least
the open). -/
def connect (st : ConnState) (attempt_ok : Bool) :
    ConnState × Bool × List SerialAct :=
  if st.reconnect_attempts ≥ max_attempts then (st, false, [])
  else
    match st.port with
    | none => (st, false, [])
    | some _ =>
      if attempt_ok then
        ({ st with
            is_connected := true
            connection_open := true
            reconnect_attempts := 0 },
         true, [.openPort, .writeProbe, .readProbe])
      else
        ({ st with
            reconnect_attempts := st.reconnect_attempts + 1
            is_connected := false
            connection_open := false },
         false, [.openPort])

/-- Embedding of `reconnect(self)` (src/raspitemp.py, lines 1182-1213):
marks the controller disconnected, closes the handle, resets
`reconnect_attempts` to 0, re-resolves the port (keeping the old one when
`find_arduino_port` finds none) and then calls `connect`.  Thread
restarts only spawn background tasks and are omitted. -/
def reconnect (st : ConnState) (found_port : Option String)
    (attempt_ok : Bool) : ConnState × Bool × List SerialAct :=
  let st1 : ConnState :=
    { st with
      is_connected := false
      connection_open := false
      reconnect_attempts := 0
      port :=
        match found_port with
        | some p => some p
        | none => st.port }
  connect st1 attempt_ok

/-- Pointwise update of an integer-keyed dictionary, the model of
`d[i] = v`. -/
def dict_set {α : Type} (f : Nat → α) (k : Nat) (v : α) : Nat → α :=
  fun n => if n = k then v else f n

/-- The JSON body the `/api/emergency-stop` route returns
(src/raspitemp.py, lines 1835-1860), restricted to the fields with
fixed meaning; `arduino_response` is None unless the serial send
succeeded. -/
structure EmergencyStopResponse where
  status : String
  all_stopped : Bool
  system_disarmed : Bool
  brake_activated : Bool
  relay_brake_activated : Bool
  arduino_response : Option (List Char)
deriving DecidableEq

/-- Embedding of the `emergency_stop` route handler (src/raspitemp.py,
lines 1804-1875; the raspberry-backend.py handler at lines 1193-1234 is
the same minus the gated emergency flag and the dual-temperature echo).
The local safe state is applied first and unconditionally: disarm,
software brake on, relay brake off, the emergency flag when monitoring is
enabled, motors 1-6 off, their speeds 0 and both group speeds 0.  Only
then, and only if a controller exists and is connected, is EMERGENCY_STOP
sent; a failed or skipped send merely leaves `arduino_response` empty.
The handler answers with the success-shaped `emergency_stop` body in
every case. -/
def emergency_stop (st : GlobalState)
    (controller_present controller_connected send_ok : Bool)
    (response : List Char) : GlobalState × EmergencyStopResponse :=
  let st1 :=
    { st with
      armed := false
      brake_active := true
      relay_brake_active := false
      temperature_emergency :=
        if st.monitoring_enabled then true else st.temperature_emergency }
  let st2 :=
    { st1 with
      motor_states :=
        [1, 2, 3, 4, 5, 6].foldl (fun f i => dict_set f i false) st1.motor_states
      individual_motor_speeds :=
        [1, 2, 3, 4, 5, 6].foldl (fun f i => dict_set f i 0)
          st1.individual_motor_speeds
      group_speed_levitation := 0
      group_speed_thrust := 0 }
  let arduino_response :=
    if controller_present && controller_connected && send_ok then
      some response
    else none
  (st2,
   { status := "emergency_stop"
     all_stopped := true
     system_disarmed := true
     brake_activated := true
     relay_brake_activated := false
     arduino_response := arduino_response })

end Raspitemp

namespace Backend

/-- Capacity of `self.command_queue = queue.Queue(maxsize=100)`
(src/raspberry-backend.py, line 75). -/
def QUEUE_CAPACITY : Nat := 100

/-- A queued asynchronous command (src/raspberry-backend.py,
lines 340-344): the text, the enqueue time and the attempt counter. -/
structure PendingCommand where
  command : String
  timestamp : ℚ
  attempts : Nat
deriving DecidableEq

/-- Embedding of `send_command_async(self, command)`
(src/raspberry-backend.py, lines 334-354).  During shutdown it refuses;
otherwise `queue.put(..., timeout=0.5)` either appends the command with
`attempts = 0` (when a slot is free) or raises `queue.Full`, which is
caught, logged and turned into a `False` return with the queue
untouched.  The bounded 0.5 s wait for a slot is abstracted into the
free-slot test; the call always returns. -/
def send_command_async (shutdown : Bool) (q : List PendingCommand)
    (command : String) (now : ℚ) : Bool × List PendingCommand :=
  if shutdown then (false, q)
  else if q.length < QUEUE_CAPACITY then
    (true, q ++ [{ command := command, timestamp := now, attempts := 0 }])
  else (false, q)

/-- Constant `max_attempts = 2` of `_execute_command`
(src/raspberry-backend.py, line 431; identically src/raspitemp.py,
line 1161): the retry limit on top of the first attempt. -/
def max_attempts : Nat := 2

/-- Embedding of `_execute_command(self, command_data)`
(src/raspberry-backend.py, lines 424-451; identically src/raspitemp.py,
lines 1154-1180 up to the retry timeout value).  Disconnected or shutting
down, it returns without sending.  Otherwise it performs one synchronous
send (`send_ok` is the outcome); on failure a command whose attempt
counter is still below `max_attempts` is re-enqueued with the counter
incremented — unless the queue is full, in which case it is dropped.
Returns the re-enqueued command, if any, and the number of sends
performed. -/
def execute_command (is_connected shutdown : Bool) (send_ok : Bool)
    (queue_len : Nat) (cmd : PendingCommand) : Option PendingCommand × Nat :=
  if !is_connected || shutdown then (none, 0)
  else if send_ok then (none, 1)
  else if cmd.attempts < max_attempts then
    if queue_len < QUEUE_CAPACITY then
      (some { cmd with attempts := cmd.attempts + 1 }, 1)
    else (none, 1)
  else (none, 1)

/-- The drain loop of `_command_processor` (src/raspberry-backend.py,
lines 283-303) specialised to one command under the conditions of the
retry-bound property: the controller stays connected, no shutdown, every
send fails and re-enqueueing always finds room.  Counts the total sends
the command receives before it is dropped; `fuel` bounds the number of
loop iterations considered. -/
def drain_attempts_all_fail (fuel : Nat) (cmd : PendingCommand) : Nat :=
  match fuel with
  | 0 => 0
  | fuel + 1 =>
    match execute_command true false false 0 cmd with
    | (some cmd2, n) => n + drain_attempts_all_fail fuel cmd2
    | (none, n) => n

end Backend

namespace Raspitemp

theorem check_sensor1_health_silent (st : GlobalState) (a1 : ℚ)
    (h : a1 > TEMP_SENSOR_TIMEOUT) :
    (check_sensor1_health st a1).sensor1_connected = false := by
  unfold check_sensor1_health
  split_ifs with hA hB
  · rfl
  · exact absurd hB.1 (not_le.mpr h)
  · rcases Bool.eq_false_or_eq_true st.sensor1_connected with hc | hc
    · exact absurd ⟨h, hc⟩ hA
    · exact hc

theorem check_sensor2_health_silent (st : GlobalState) (a2 : ℚ)
    (h : a2 > TEMP_SENSOR_TIMEOUT) :
    (check_sensor2_health st a2).sensor2_connected = false := by
  unfold check_sensor2_health
  split_ifs with hA hB
  · rfl
  · exact absurd hB.1 (not_le.mpr h)
  · rcases Bool.eq_false_or_eq_true st.sensor2_connected with hc | hc
    · exact absurd ⟨h, hc⟩ hA
    · exact hc

theorem check_sensor1_health_const (st : GlobalState) (a1 : ℚ) :
    (check_sensor1_health st a1).sensor2_connected = st.sensor2_connected ∧
    (check_sensor1_health st a1).sensors_detected = st.sensors_detected ∧
    (check_sensor1_health st a1).monitoring_enabled = st.monitoring_enabled ∧
    (check_sensor1_health st a1).temperature_monitoring_required
      = st.temperature_monitoring_required ∧
    (check_sensor1_health st a1).temp_alarm = st.temp_alarm ∧
    (check_sensor1_health st a1).buzzer_active = st.buzzer_active ∧
    (check_sensor1_health st a1).temperature_emergency = st.temperature_emergency := by
  unfold check_sensor1_health
  split_ifs <;> simp

theorem check_sensor2_health_const (st : GlobalState) (a2 : ℚ) :
    (check_sensor2_health st a2).sensor1_connected = st.sensor1_connected ∧
    (check_sensor2_health st a2).sensors_detected = st.sensors_detected ∧
    (check_sensor2_health st a2).monitoring_enabled = st.monitoring_enabled ∧
    (check_sensor2_health st a2).temperature_monitoring_required
      = st.temperature_monitoring_required ∧
    (check_sensor2_health st a2).temp_alarm = st.temp_alarm ∧
    (check_sensor2_health st a2).buzzer_active = st.buzzer_active ∧
    (check_sensor2_health st a2).temperature_emergency = st.temperature_emergency := by
  unfold check_sensor2_health
  split_ifs <;> simp

theorem check_reflector_health_const (st : GlobalState) (ar : ℚ) :
    (check_reflector_health st ar).sensor1_connected = st.sensor1_connected ∧
    (check_reflector_health st ar).sensor2_connected = st.sensor2_connected ∧
    (check_reflector_health st ar).sensors_detected = st.sensors_detected ∧
    (check_reflector_health st ar).monitoring_enabled = st.monitoring_enabled ∧
    (check_reflector_health st ar).temperature_monitoring_required
      = st.temperature_monitoring_required ∧
    (check_reflector_health st ar).temp_alarm = st.temp_alarm ∧
    (check_reflector_health st ar).buzzer_active = st.buzzer_active ∧
    (check_reflector_health st ar).temperature_emergency = st.temperature_emergency := by
  unfold check_reflector_health
  split_ifs <;> simp

theorem recompute_monitoring_no_sensors (st : GlobalState)
    (h1 : st.sensor1_connected = false) (h2 : st.sensor2_connected = false)
    (hme : st.monitoring_enabled = st.sensors_detected)
    (htmr : st.temperature_monitoring_required = st.sensors_detected)
    (halarm : st.temp_alarm = true → st.sensors_detected = true)
    (hbuzz : st.buzzer_active = true → st.sensors_detected = true)
    (hemerg : st.temperature_emergency = true → st.sensors_detected = true) :
    (recompute_monitoring st).sensor1_connected = false ∧
    (recompute_monitoring st).sensor2_connected = false ∧
    (recompute_monitoring st).sensors_detected = false ∧
    (recompute_monitoring st).monitoring_enabled = false ∧
    (recompute_monitoring st).temperature_monitoring_required = false ∧
    (recompute_monitoring st).temp_alarm = false ∧
    (recompute_monitoring st).buzzer_active = false ∧
    (recompute_monitoring st).temperature_emergency = false := by
  rcases Bool.eq_false_or_eq_true st.sensors_detected with hd | hd
  · unfold recompute_monitoring
    dsimp only
    rw [h1, h2, hd]
    simp
  · have ha : st.temp_alarm = false := by
      cases hta : st.temp_alarm
      · rfl
      · exact absurd (halarm hta) (by rw [hd]; simp)
    have hb : st.buzzer_active = false := by
      cases htb : st.buzzer_active
      · rfl
      · exact absurd (hbuzz htb) (by rw [hd]; simp)
    have he : st.temperature_emergency = false := by
      cases hte : st.temperature_emergency
      · rfl
      · exact absurd (hemerg hte) (by rw [hd]; simp)
    unfold recompute_monitoring
    dsimp only
    rw [h1, h2, hd]
    simp [h1, h2, hd, ha, hb, he, hme.trans hd, htmr.trans hd]

theorem recompute_monitoring_connected_const (st : GlobalState) :
    (recompute_monitoring st).sensor1_connected = st.sensor1_connected ∧
    (recompute_monitoring st).sensor2_connected = st.sensor2_connected := by
  unfold recompute_monitoring
  dsimp only
  split_ifs <;> simp

theorem read_response_loop_reads_le (fuel : Nat) :
    ∀ (chunks : List (List Char)) (acc : List Char) (reads : Nat),
      reads ≤ (read_response_loop fuel chunks acc reads).2.2 := by
  induction fuel with
  | zero => intro chunks acc reads; simp [read_response_loop]
  | succ n ih =>
    intro chunks acc reads
    match chunks with
    | [] => exact ih [] acc reads
    | c :: rest =>
      show reads ≤ (read_response_loop (n + 1) (c :: rest) acc reads).2.2
      unfold read_response_loop
      dsimp only
      split_ifs
      · simp
      · simp
      · exact le_trans (Nat.le_succ reads) (ih rest (acc ++ c) (reads + 1))

end Raspitemp

namespace Raspitemp

/-- Embedding of the buzzer-off route's state effect (src/raspitemp.py,
lines 1666-1667): clearing the buzzer flag after a confirmed BUZZER_OFF. -/
def buzzer_off_route (st : GlobalState) : GlobalState :=
  { st with buzzer_active := false }

theorem inv_buzzer_off_route (st : GlobalState) (h : Inv st) :
    Inv (buzzer_off_route st) := by
  obtain ⟨h1, h2, h3, h4, h5⟩ := h
  unfold Inv buzzer_off_route
  simp_all

theorem inv_emergency_stop (st : GlobalState)
    (present conn ok : Bool) (resp : List Char) (h : Inv st) :
    Inv (emergency_stop st present conn ok resp).1 := by
  obtain ⟨h1, h2, h3, h4, h5⟩ := h
  unfold Inv emergency_stop
  dsimp only
  split_ifs with hm
  · exact ⟨h1, h2, h3, h4, fun _ => h1 ▸ hm⟩
  · exact ⟨h1, h2, h3, h4, h5⟩

theorem check_sensor1_health_revive (st : GlobalState) (a1 : ℚ)
    (h : a1 ≤ TEMP_SENSOR_TIMEOUT) (hc : st.sensor1_connected = false) :
    (check_sensor1_health st a1).sensor1_connected = true := by
  unfold check_sensor1_health
  split_ifs with hA hB
  · exact absurd hA.2 (by rw [hc]; simp)
  · rfl
  · exact absurd ⟨h, hc⟩ hB

end Raspitemp

/-- Claim C9: a dual-temperature reading marks sensor i connected (and
enables monitoring) exactly when its value lies strictly inside
(-50, 100) or the flag was already set; values outside the window leave
the connectivity and monitoring flags as they were; and the reported
values are stored as the current sensor temperatures in every case. -/
theorem c9_range_gates_flags_values_always_stored
    (st : Raspitemp.GlobalState) (t1 t2 tm : ℚ) :
    (Raspitemp.update_dual_temperatures st t1 t2 tm).sensor1_connected
      = (if t1 > -50 ∧ t1 < 100 then true else st.sensor1_connected) ∧
    (Raspitemp.update_dual_temperatures st t1 t2 tm).sensor2_connected
      = (if t2 > -50 ∧ t2 < 100 then true else st.sensor2_connected) ∧
    (Raspitemp.update_dual_temperatures st t1 t2 tm).sensors_detected
      = (if t2 > -50 ∧ t2 < 100 then true
         else if t1 > -50 ∧ t1 < 100 then true else st.sensors_detected) ∧
    (Raspitemp.update_dual_temperatures st t1 t2 tm).monitoring_enabled
      = (if t2 > -50 ∧ t2 < 100 then true
         else if t1 > -50 ∧ t1 < 100 then true else st.monitoring_enabled) ∧
    (Raspitemp.update_dual_temperatures st t1 t2 tm).temperature_monitoring_required
      = (if t2 > -50 ∧ t2 < 100 then true
         else if t1 > -50 ∧ t1 < 100 then true
         else st.temperature_monitoring_required) ∧
    (Raspitemp.update_dual_temperatures st t1 t2 tm).sensor1_temp = t1 ∧
    (Raspitemp.update_dual_temperatures st t1 t2 tm).sensor2_temp = t2 ∧
    (Raspitemp.update_dual_temperatures st t1 t2 tm).current_temp = tm := by
  unfold Raspitemp.update_dual_temperatures Raspitemp.store_dual_temperatures
    Raspitemp.mark_sensor1_valid Raspitemp.mark_sensor2_valid
  split_ifs <;> simp_all

/-- Claim C1, counterexample: feeding the dual-temperature update a
sensor-1 value of 90 °C when the last accepted reading was 25 °C — a
delta of 65 °C, far beyond the 50 °C sanity bound — does not leave the
stored temperature unchanged: the 90 °C value is stored. -/
theorem c1_counterexample :
    (90 : ℚ) - Raspitemp.initial_state.sensor1_temp > 50 ∧
    Raspitemp.initial_state.sensor1_temp = 25 ∧
    (Raspitemp.update_dual_temperatures Raspitemp.initial_state 90 26 90).sensor1_temp
      = 90 ∧
    (90 : ℚ) ≠ 25 := by
  refine ⟨?_, rfl, ?_, by norm_num⟩
  · show (90 : ℚ) - 25 > 50
    norm_num
  · have h1 : (90 : ℚ) > -50 ∧ (90 : ℚ) < 100 := by norm_num
    have h2 : (26 : ℚ) > -50 ∧ (26 : ℚ) < 100 := by norm_num
    simp [Raspitemp.update_dual_temperatures, Raspitemp.store_dual_temperatures,
      Raspitemp.mark_sensor1_valid, Raspitemp.mark_sensor2_valid, h1, h2]

/-- Claim C1, amended: every incoming dual-temperature line is stored
unconditionally — the update performs no delta check against the last
accepted reading, so the stored values change even when the jump exceeds
50 °C; the only defensive test is the (-50, 100) range gate on the
connectivity flags. -/
theorem c1_amended_storage_unconditional
    (st : Raspitemp.GlobalState) (t1 t2 tm : ℚ) :
    (Raspitemp.update_dual_temperatures st t1 t2 tm).sensor1_temp = t1 ∧
    (Raspitemp.update_dual_temperatures st t1 t2 tm).sensor2_temp = t2 ∧
    (Raspitemp.update_dual_temperatures st t1 t2 tm).current_temp = tm := by
  unfold Raspitemp.update_dual_temperatures Raspitemp.store_dual_temperatures
    Raspitemp.mark_sensor1_valid Raspitemp.mark_sensor2_valid
  split_ifs <;> simp_all

/-- Claim C3: when no valid reading from either temperature sensor has
arrived for more than TEMP_SENSOR_TIMEOUT (both ages exceed 10 s), the
next health-monitor cycle leaves both sensors marked disconnected,
temperature monitoring is no longer required, and the temperature-alarm,
buzzer and emergency flags are all clear — with no TEMP_SAFE message
involved.  The hypothesis `Inv` is the reachability invariant
established for every embedded operation above. -/
theorem c3_sensor_silence_bypasses_monitoring
    (st : Raspitemp.GlobalState) (a1 a2 ar : ℚ)
    (hinv : Raspitemp.Inv st)
    (h1 : a1 > Raspitemp.TEMP_SENSOR_TIMEOUT)
    (h2 : a2 > Raspitemp.TEMP_SENSOR_TIMEOUT) :
    (Raspitemp.sensor_health_monitor_step st a1 a2 ar).sensor1_connected = false ∧
    (Raspitemp.sensor_health_monitor_step st a1 a2 ar).sensor2_connected = false ∧
    (Raspitemp.sensor_health_monitor_step st a1 a2 ar).sensors_detected = false ∧
    (Raspitemp.sensor_health_monitor_step st a1 a2 ar).monitoring_enabled = false ∧
    (Raspitemp.sensor_health_monitor_step st a1 a2 ar).temperature_monitoring_required
      = false ∧
    (Raspitemp.sensor_health_monitor_step st a1 a2 ar).temp_alarm = false ∧
    (Raspitemp.sensor_health_monitor_step st a1 a2 ar).buzzer_active = false ∧
    (Raspitemp.sensor_health_monitor_step st a1 a2 ar).temperature_emergency = false := by
  obtain ⟨hme, htmr, halarm, hbuzz, hemerg⟩ := hinv
  unfold Raspitemp.sensor_health_monitor_step
  obtain ⟨cA1, cA2, cA3, cA4, cA5, cA6, cA7⟩ :=
    Raspitemp.check_sensor1_health_const st a1
  obtain ⟨cB1, cB2, cB3, cB4, cB5, cB6, cB7⟩ :=
    Raspitemp.check_sensor2_health_const (Raspitemp.check_sensor1_health st a1) a2
  obtain ⟨cC1, cC2, cC3, cC4, cC5, cC6, cC7, cC8⟩ :=
    Raspitemp.check_reflector_health_const
      (Raspitemp.check_sensor2_health (Raspitemp.check_sensor1_health st a1) a2) ar
  have hA1 := Raspitemp.check_sensor1_health_silent st a1 h1
  have hB2 :=
    Raspitemp.check_sensor2_health_silent (Raspitemp.check_sensor1_health st a1) a2 h2
  refine Raspitemp.recompute_monitoring_no_sensors _ ?_ ?_ ?_ ?_ ?_ ?_ ?_
  · rw [cC1, cB1, hA1]
  · rw [cC2, hB2]
  · rw [cC4, cC3, cB3, cB2, cA3, cA2]
    exact hme
  · rw [cC5, cC3, cB4, cB2, cA4, cA2]
    exact htmr
  · intro h
    rw [cC3, cB2, cA2]
    exact halarm (by rw [cC6, cB5, cA5] at h; exact h)
  · intro h
    rw [cC3, cB2, cA2]
    exact hbuzz (by rw [cC7, cB6, cA6] at h; exact h)
  · intro h
    rw [cC3, cB2, cA2]
    exact hemerg (by rw [cC8, cB7, cA7] at h; exact h)

/-- Claim C3, witness: a state with sensor 1 connected, monitoring
required and the alarm, buzzer and emergency flags all raised; after a
health cycle with both sensor ages at 11 s (> 10 s timeout) everything is
cleared. -/
theorem c3_witness :
    Raspitemp.Inv { Raspitemp.initial_state with
      sensor1_connected := true, sensors_detected := true,
      monitoring_enabled := true, temperature_monitoring_required := true,
      temp_alarm := true, buzzer_active := true,
      temperature_emergency := true } ∧
    (11 : ℚ) > Raspitemp.TEMP_SENSOR_TIMEOUT ∧
    ((Raspitemp.sensor_health_monitor_step { Raspitemp.initial_state with
        sensor1_connected := true, sensors_detected := true,
        monitoring_enabled := true, temperature_monitoring_required := true,
        temp_alarm := true, buzzer_active := true,
        temperature_emergency := true } 11 11 5).sensor1_connected = false ∧
     (Raspitemp.sensor_health_monitor_step { Raspitemp.initial_state with
        sensor1_connected := true, sensors_detected := true,
        monitoring_enabled := true, temperature_monitoring_required := true,
        temp_alarm := true, buzzer_active := true,
        temperature_emergency := true } 11 11 5).sensor2_connected = false ∧
     (Raspitemp.sensor_health_monitor_step { Raspitemp.initial_state with
        sensor1_connected := true, sensors_detected := true,
        monitoring_enabled := true, temperature_monitoring_required := true,
        temp_alarm := true, buzzer_active := true,
        temperature_emergency := true } 11 11 5).sensors_detected = false ∧
     (Raspitemp.sensor_health_monitor_step { Raspitemp.initial_state with
        sensor1_connected := true, sensors_detected := true,
        monitoring_enabled := true, temperature_monitoring_required := true,
        temp_alarm := true, buzzer_active := true,
        temperature_emergency := true } 11 11 5).monitoring_enabled = false ∧
     (Raspitemp.sensor_health_monitor_step { Raspitemp.initial_state with
        sensor1_connected := true, sensors_detected := true,
        monitoring_enabled := true, temperature_monitoring_required := true,
        temp_alarm := true, buzzer_active := true,
        temperature_emergency := true } 11 11 5).temperature_monitoring_required
       = false ∧
     (Raspitemp.sensor_health_monitor_step { Raspitemp.initial_state with
        sensor1_connected := true, sensors_detected := true,
        monitoring_enabled := true, temperature_monitoring_required := true,
        temp_alarm := true, buzzer_active := true,
        temperature_emergency := true } 11 11 5).temp_alarm = false ∧
     (Raspitemp.sensor_health_monitor_step { Raspitemp.initial_state with
        sensor1_connected := true, sensors_detected := true,
        monitoring_enabled := true, temperature_monitoring_required := true,
        temp_alarm := true, buzzer_active := true,
        temperature_emergency := true } 11 11 5).buzzer_active = false ∧
     (Raspitemp.sensor_health_monitor_step { Raspitemp.initial_state with
        sensor1_connected := true, sensors_detected := true,
        monitoring_enabled := true, temperature_monitoring_required := true,
        temp_alarm := true, buzzer_active := true,
        temperature_emergency := true } 11 11 5).temperature_emergency = false) :=
  ⟨by decide, by decide,
   c3_sensor_silence_bypasses_monitoring _ 11 11 5 (by decide) (by decide) (by decide)⟩

/-- Claim C7, counterexample: from the initial state (both sensors
marked disconnected, last-seen just initialised), a health-monitor cycle
with all ages at 3 s flips sensor 1 from disconnected back to connected —
the monitor does perform the false-to-true transition the claim reserves
to the stream classifier. -/
theorem c7_counterexample :
    Raspitemp.initial_state.sensor1_connected = false ∧
    (Raspitemp.sensor_health_monitor_step Raspitemp.initial_state 3 3 3).sensor1_connected
      = true := by decide

/-- Claim C7, amended: the health-monitor cycle transitions sensors in
both directions — besides marking a silent sensor disconnected, it marks
a disconnected sensor connected again whenever its age is back within
the timeout; the false-to-true transition is not exclusive to the stream
classifier's update path. -/
theorem c7_amended_monitor_reconnects
    (st : Raspitemp.GlobalState) (a1 a2 ar : ℚ)
    (h : a1 ≤ Raspitemp.TEMP_SENSOR_TIMEOUT)
    (hc : st.sensor1_connected = false) :
    (Raspitemp.sensor_health_monitor_step st a1 a2 ar).sensor1_connected = true := by
  unfold Raspitemp.sensor_health_monitor_step
  rw [(Raspitemp.recompute_monitoring_connected_const _).1,
    (Raspitemp.check_reflector_health_const _ _).1,
    (Raspitemp.check_sensor2_health_const _ _).1]
  exact Raspitemp.check_sensor1_health_revive st a1 h hc

/-- Claim C7, witness for the amended theorem: sensor 1 disconnected with
an age of 3 s is reconnected by the next cycle. -/
theorem c7_amended_witness :
    (3 : ℚ) ≤ Raspitemp.TEMP_SENSOR_TIMEOUT ∧
    Raspitemp.initial_state.sensor1_connected = false ∧
    (Raspitemp.sensor_health_monitor_step Raspitemp.initial_state 3 9 2).sensor1_connected
      = true :=
  ⟨by decide, rfl,
   c7_amended_monitor_reconnects Raspitemp.initial_state 3 9 2 (by decide) rfl⟩

/-- Claim C2, counterexample: a synchronous send on a connected link with
one pending chunk ("PONG\n") performs a serial read itself — it consumes
the chunk from the link (one read, nothing left), rather than only
writing the command and being notified by the continuous reader. -/
theorem c2_counterexample :
    (Raspitemp.send_command_sync ⟨true, true, 0⟩ false
        ("PING".toList) [("PONG\n".toList)] 5).reads = 1 ∧
    (Raspitemp.send_command_sync ⟨true, true, 0⟩ false
        ("PING".toList) [("PONG\n".toList)] 5).rest = [] := by decide

/-- Claim C2, amended: the continuous reader is not the sole reader of
the serial link — `send_command_sync`, after writing the command, reads
response bytes from the link directly: whenever it runs connected with
data waiting, it performs at least one read itself. -/
theorem c2_amended_sync_send_reads_link
    (st : Raspitemp.CtrlState) (cmd c : List Char)
    (rest : List (List Char)) (fuel : Nat)
    (h1 : st.is_connected = true) (h2 : st.connection_open = true) :
    1 ≤ (Raspitemp.send_command_sync st false cmd (c :: rest) (fuel + 1)).reads := by
  unfold Raspitemp.send_command_sync
  rw [h1, h2]
  simp only [Bool.not_true, Bool.or_self, Bool.or_false, Bool.false_or,
    if_false, Bool.false_eq_true]
  split_ifs
  · show 1 ≤ (Raspitemp.read_response_loop (fuel + 1) (c :: rest) [] 0).2.2
    unfold Raspitemp.read_response_loop
    dsimp only
    split_ifs
    · simp
    · simp
    · simpa using Raspitemp.read_response_loop_reads_le fuel rest ([] ++ c) (0 + 1)
  · show 1 ≤ (Raspitemp.read_response_loop (fuel + 1) (c :: rest) [] 0).2.2
    unfold Raspitemp.read_response_loop
    dsimp only
    split_ifs
    · simp
    · simp
    · simpa using Raspitemp.read_response_loop_reads_le fuel rest ([] ++ c) (0 + 1)

/-- Claim C2, witness for the amended theorem: the concrete connected
call above performs at least one read. -/
theorem c2_amended_witness :
    1 ≤ (Raspitemp.send_command_sync ⟨true, true, 0⟩ false
        ("ARM".toList) [("ACK:ARMED\n".toList)] 4).reads :=
  c2_amended_sync_send_reads_link ⟨true, true, 0⟩ ("ARM".toList)
    ("ACK:ARMED\n".toList) [] 3 rfl rfl

/-- Claim C4, counterexample: on a connected link, a synchronous send
whose only response is the telemetry line "R:1:2:3:4\n" — which contains
no completion token — is still reported as success with that text, not
as a timeout-style failure. -/
theorem c4_counterexample :
    Raspitemp.has_completion_keyword ("R:1:2:3:4\n".toList) = false ∧
    (Raspitemp.send_command_sync ⟨true, true, 0⟩ false
        ("ARM".toList) [("R:1:2:3:4\n".toList)] 5).result
      = Raspitemp.SyncResult.ok ("R:1:2:3:4".toList) := by decide

/-- Claim C4, amended: with no open connection (or during shutdown) the
synchronous send fails with the link-down result without writing to the
link; otherwise it writes the command and fails with the empty-response
result exactly when the loop finished with no accumulated text — any
nonempty accumulated text is reported as success, with or without a
completion token. -/
theorem c4_amended_success_needs_no_token
    (st : Raspitemp.CtrlState) (shutdown : Bool) (cmd : List Char)
    (chunks : List (List Char)) (fuel : Nat) :
    (Raspitemp.send_command_sync st shutdown cmd chunks fuel).result
      = (if st.is_connected && st.connection_open && !shutdown then
          (if Raspitemp.trimChars
              (Raspitemp.send_command_sync st shutdown cmd chunks fuel).raw = [] then
            Raspitemp.SyncResult.emptyResponse
          else
            Raspitemp.SyncResult.ok (Raspitemp.trimChars
              (Raspitemp.send_command_sync st shutdown cmd chunks fuel).raw))
        else Raspitemp.SyncResult.notConnected) ∧
    (Raspitemp.send_command_sync st shutdown cmd chunks fuel).written
      = (if st.is_connected && st.connection_open && !shutdown then [cmd ++ ['\n']]
         else []) := by
  unfold Raspitemp.send_command_sync
  cases hic : st.is_connected <;> cases hco : st.connection_open <;>
    cases hs : shutdown <;>
    (simp_all [List.isEmpty_iff]; try (split_ifs <;> simp_all))

/-- Claim C5: an asynchronous submission against a full queue never
blocks the caller into the queue — the command is dropped (the queue is
returned unchanged) and the queue-full error result `false` is handed
back. -/
theorem c5_queue_full_drops_and_returns_error
    (q : List Backend.PendingCommand) (command : String) (now : ℚ)
    (h : Backend.QUEUE_CAPACITY ≤ q.length) :
    Backend.send_command_async false q command now = (false, q) := by
  unfold Backend.send_command_async
  have hlt : ¬ q.length < Backend.QUEUE_CAPACITY := not_lt.mpr h
  simp [hlt]

/-- Claim C5, witness: submitting to a queue already holding 100
commands (the configured capacity) is rejected with `false` and the
queue unchanged. -/
theorem c5_witness :
    Backend.QUEUE_CAPACITY
      ≤ (List.replicate 100 (⟨"MOTOR_SPEED:1:50", 0, 0⟩ : Backend.PendingCommand)).length ∧
    Backend.send_command_async false
        (List.replicate 100 (⟨"MOTOR_SPEED:1:50", 0, 0⟩ : Backend.PendingCommand))
        "ARM" 7
      = (false, List.replicate 100 (⟨"MOTOR_SPEED:1:50", 0, 0⟩ : Backend.PendingCommand)) :=
  ⟨by simp [Backend.QUEUE_CAPACITY],
   c5_queue_full_drops_and_returns_error _ "ARM" 7 (by simp [Backend.QUEUE_CAPACITY])⟩

/-- Claim C6: a queued command whose every send attempt fails is executed
exactly 1 + max_attempts = 3 times by the drain loop — the attempt
counter rises by one per failure and the command is dropped after the
third failed send. -/
theorem c6_retry_bound (cmd : Backend.PendingCommand) (fuel : Nat)
    (h0 : cmd.attempts = 0) (hf : 3 ≤ fuel) :
    Backend.drain_attempts_all_fail fuel cmd = 1 + Backend.max_attempts := by
  obtain ⟨k, rfl⟩ : ∃ k, fuel = k + 3 := ⟨fuel - 3, by omega⟩
  obtain ⟨c, t, a⟩ := cmd
  simp only at h0
  subst h0
  simp [Backend.drain_attempts_all_fail, Backend.execute_command,
    Backend.max_attempts, Backend.QUEUE_CAPACITY]

/-- Claim C6, witness: a fresh command that always fails is sent exactly
three times. -/
theorem c6_witness :
    (⟨"ARM", 0, 0⟩ : Backend.PendingCommand).attempts = 0 ∧
    3 ≤ 5 ∧
    Backend.drain_attempts_all_fail 5 (⟨"ARM", 0, 0⟩ : Backend.PendingCommand)
      = 1 + Backend.max_attempts :=
  ⟨rfl, by omega, c6_retry_bound ⟨"ARM", 0, 0⟩ 5 rfl (by omega)⟩

/-- Claim C8: with the attempt budget (5) exhausted, `connect` fails fast
— no serial action is performed and the state is untouched; a failed
actual attempt (budget remaining, port present) increments the counter by
one; and a manual `reconnect` is exactly `connect` run on the state with
the counter reset to zero (and the freshly resolved port), so it retries
even after exhaustion. -/
theorem c8_attempt_budget
    (st : Raspitemp.ConnState) (r : Bool) (fp : Option String) (p : String) :
    (Raspitemp.max_attempts ≤ st.reconnect_attempts →
      Raspitemp.connect st r = (st, false, [])) ∧
    (st.reconnect_attempts < Raspitemp.max_attempts → st.port = some p →
      r = false →
      Raspitemp.connect st r
        = ({ st with
              reconnect_attempts := st.reconnect_attempts + 1
              is_connected := false
              connection_open := false },
           false, [Raspitemp.SerialAct.openPort])) ∧
    (fp = some p →
      Raspitemp.reconnect st fp r
        = Raspitemp.connect { st with
            is_connected := false
            connection_open := false
            reconnect_attempts := 0
            port := some p } r) := by
  refine ⟨?_, ?_, ?_⟩
  · intro h
    unfold Raspitemp.connect
    rw [if_pos h]
  · intro hlt hport hr
    subst hr
    unfold Raspitemp.connect
    rw [if_neg (not_le.mpr hlt), hport]
    simp
  · intro hfp
    subst hfp
    unfold Raspitemp.reconnect
    rfl

/-- Claim C8, witness: with the counter at 5 the connect call is inert;
a failing attempt at counter 2 moves it to 3; and a manual reconnect
from the exhausted state is the reset-counter connect. -/
theorem c8_witness :
    Raspitemp.connect ⟨5, some "COM3", false, false⟩ true
      = (⟨5, some "COM3", false, false⟩, false, []) ∧
    Raspitemp.connect ⟨2, some "COM3", false, false⟩ false
      = (⟨3, some "COM3", false, false⟩, false, [Raspitemp.SerialAct.openPort]) ∧
    Raspitemp.reconnect ⟨5, some "COM3", false, false⟩ (some "COM4") true
      = Raspitemp.connect ⟨0, some "COM4", false, false⟩ true :=
  ⟨(c8_attempt_budget ⟨5, some "COM3", false, false⟩ true none "x").1 (by decide),
   (c8_attempt_budget ⟨2, some "COM3", false, false⟩ false none "COM3").2.1
     (by decide) rfl rfl,
   (c8_attempt_budget ⟨5, some "COM3", false, false⟩ true (some "COM4") "COM4").2.2 rfl⟩

/-- Claim C10: the emergency-stop handler applies the local safe state
unconditionally — disarmed, software brake on, relay brake off, all six
motors stopped with all individual and group speeds zero — and answers
with the success-shaped `emergency_stop` body, for every combination of
controller presence, connectivity and serial-send outcome. -/
theorem c10_emergency_stop_unconditional
    (st : Raspitemp.GlobalState) (present conn ok : Bool) (resp : List Char) :
    (Raspitemp.emergency_stop st present conn ok resp).1.armed = false ∧
    (Raspitemp.emergency_stop st present conn ok resp).1.brake_active = true ∧
    (Raspitemp.emergency_stop st present conn ok resp).1.relay_brake_active = false ∧
    (([1, 2, 3, 4, 5, 6] : List Nat).map
        (Raspitemp.emergency_stop st present conn ok resp).1.motor_states)
      = List.replicate 6 false ∧
    (([1, 2, 3, 4, 5, 6] : List Nat).map
        (Raspitemp.emergency_stop st present conn ok resp).1.individual_motor_speeds)
      = List.replicate 6 (0 : Int) ∧
    (Raspitemp.emergency_stop st present conn ok resp).1.group_speed_levitation = 0 ∧
    (Raspitemp.emergency_stop st present conn ok resp).1.group_speed_thrust = 0 ∧
    (Raspitemp.emergency_stop st present conn ok resp).2.status = "emergency_stop" ∧
    (Raspitemp.emergency_stop st present conn ok resp).2.all_stopped = true ∧
    (Raspitemp.emergency_stop st present conn ok resp).2.system_disarmed = true ∧
    (Raspitemp.emergency_stop st present conn ok resp).2.brake_activated = true ∧
    (Raspitemp.emergency_stop st present conn ok resp).2.relay_brake_activated
      = false := by
  unfold Raspitemp.emergency_stop
  simp [Raspitemp.dict_set, List.replicate]
